import Mathlib

/-!
Shallow embedding of `src/Source/Assemblies/Caching/LegacyLocalCacheRepository.ts`
(the `LegacyLocalCacheRepository` class of mfdlabs/grid-websrv), together with a
model of its two collaborators that are not part of the source tree: the
`CachePolicy` enumeration and the `LocalCacheHelper` store registry.

Stateful TypeScript code is embedded as explicit state passing: the process-wide
store registry owned by `LocalCacheHelper` is a value of type `LocalCacheState`
threaded through every operation, and the mutable instance fields of the
repository class form the structure `LegacyLocalCacheRepository`.
-/

/-- JavaScript runtime values, as far as these operations observe them.  The
repository stores raw strings; the typed accessors produce either a parsed JSON
value, a parsed number, or — on the deliberate unsafe fallback — the raw string
itself coerced to the target type, so the result slot is a dynamic value.
Numbers are modelled as integers; no claim depends on float arithmetic. -/
inductive JsValue where
  | str : String → JsValue
  | num : Int → JsValue
  | boolv : Bool → JsValue
  | nullv : JsValue
deriving DecidableEq, Repr

/-- Modelled from the spec: the closed `CachePolicy` enumeration imported from
`./Enumeration/CachePolicy` (its defining file is not in the source tree; the
spec's §3 table lists the twelve members).  The member names follow the
spellings used by the `switch` in `CalculateResetMsForStatePolicy`, which are
part of the source (the source spells two of them `SateAfterThirtySeconds` and
`StateAfterThirtyMinutes`; the spec's table writes `StaleAfterThirtySeconds`
and `StaleAfterThirtyMinutes` for the same members).  The extra constructor
`Unrecognized` models a runtime value outside the declared enumeration — a
TypeScript numeric enum admits arbitrary numbers through casts — which the
`switch` matches with none of its cases. -/
inductive CachePolicy where
  | DoNotCache
  | NoReset
  | StaleAfterFiveSeconds
  | StaleAfterTenSeconds
  | SateAfterThirtySeconds
  | StaleAfterOneMinute
  | StaleAfterTwoMinutes
  | StaleAfterFiveMinutes
  | StaleAfterTenMinutes
  | StaleAfterFifteenMinutes
  | StateAfterThirtyMinutes
  | StaleAfterOneHour
  | Unrecognized : Int → CachePolicy
deriving DecidableEq, Repr

/-- One named cache store: an ordered mapping from key to raw string value. -/
abbrev CacheStore := List (String × String)

/-- The process-wide registry owned by `LocalCacheHelper`: an ordered mapping
from store name to store. -/
abbrev LocalCacheState := List (String × CacheStore)

/-- First-match lookup in an ordered association list. -/
def lookupAssoc {α : Type} (l : List (String × α)) (k : String) : Option α :=
  match l with
  | [] => none
  | (k', v) :: rest => if k' = k then some v else lookupAssoc rest k

/-- Update the entry for `k` in place if present, else append it (the JS `Map`
set semantics: insertion order is preserved, an existing key keeps its slot). -/
def updateAssoc {α : Type} (l : List (String × α)) (k : String) (v : α) :
    List (String × α) :=
  match l with
  | [] => [(k, v)]
  | (k', v') :: rest =>
    if k' = k then (k, v) :: rest else (k', v') :: updateAssoc rest k v

/-- Remove the entry for `k` if present (the JS `Map` delete semantics). -/
def removeAssoc {α : Type} (l : List (String × α)) (k : String) :
    List (String × α) :=
  match l with
  | [] => []
  | (k', v') :: rest =>
    if k' = k then rest else (k', v') :: removeAssoc rest k

namespace LocalCacheHelper

/-- The partition for `name`, an empty store when `name` is unregistered. -/
def getStore (st : LocalCacheState) (name : String) : CacheStore :=
  (lookupAssoc st name).getD []

/-- Modelled from the spec: `RegisterStore(name)` — idempotent creation of a
partition; safe to call repeatedly (`LocalCacheHelper.RegisterLocalCacheStore`
is not in the source tree). -/
def RegisterLocalCacheStore (st : LocalCacheState) (name : String) :
    LocalCacheState :=
  if (lookupAssoc st name).isSome then st else st ++ [(name, [])]

/-- Modelled from the spec: `GetSize(name) -> integer` — current key count in
the partition. -/
def GetLocalCacheSize (st : LocalCacheState) (name : String) : Nat :=
  (getStore st name).length

/-- Modelled from the spec: `Clear(name)` — removes all keys in the partition;
the partition itself persists. -/
def ClearLocalCacheStore (st : LocalCacheState) (name : String) :
    LocalCacheState :=
  updateAssoc st name []

/-- Modelled from the spec: `GetAll(name)` — snapshot of all entries. -/
def GetAllLocalCacheValues (st : LocalCacheState) (name : String) : CacheStore :=
  getStore st name

/-- Modelled from the spec: `Get(name, key) -> (found, value)`; the
`(found, value)` pair is embedded as `Option String` (`some` = found). -/
def GetLocalCacheValue (st : LocalCacheState) (name key : String) :
    Option String :=
  lookupAssoc (getStore st name) key

/-- Modelled from the spec: `Set(name, key, value) -> string` — stores the raw
string and echoes the stored value. -/
def SetLocalCachedValue (st : LocalCacheState) (name key value : String) :
    LocalCacheState × String :=
  (updateAssoc st name (updateAssoc (getStore st name) key value), value)

/-- Modelled from the spec: `Delete(name, key)` — removes one entry if present. -/
def DeleteLocalCachedValue (st : LocalCacheState) (name key : String) :
    LocalCacheState :=
  updateAssoc st name (removeAssoc (getStore st name) key)

end LocalCacheHelper

/-- A live interval timer as created by `setInterval`.  Node.js semantics: the
interval keeps invoking its callback until `clearInterval` is called on it;
`unref()` only clears the `refed` flag, which stops the timer from keeping the
event loop (the process) alive but does not cancel the interval. -/
structure TimerHandle where
  interval : Int
  refed : Bool
deriving DecidableEq, Repr

/-- The instance fields of the `LegacyLocalCacheRepository` class.
`WasRegisteredForCacheReset` is the single field of the
`_PersistentRoundRobinState` object. -/
structure LegacyLocalCacheRepository where
  _Name : String
  _DoNotCache : Bool
  WasRegisteredForCacheReset : Bool
  _CacheRefreshIntervalTimer : Option TimerHandle
deriving DecidableEq, Repr

namespace LegacyLocalCacheRepository

/-- `CalculateResetMsForStatePolicy` (source lines 131–174): `timeOut` starts
as `null` and the `switch` assigns it; a value matched by no case leaves it
`null`.  `none` embeds `null`, `some (-1)` embeds `-1`. -/
def CalculateResetMsForStatePolicy (policy : CachePolicy) : Option Int :=
  match policy with
  | CachePolicy.DoNotCache => none
  | CachePolicy.NoReset => some (-1)
  | CachePolicy.StaleAfterFiveSeconds => some 5000
  | CachePolicy.StaleAfterTenSeconds => some 10000
  | CachePolicy.SateAfterThirtySeconds => some 30000
  | CachePolicy.StaleAfterOneMinute => some 60000
  | CachePolicy.StaleAfterTwoMinutes => some 120000
  | CachePolicy.StaleAfterFiveMinutes => some 300000
  | CachePolicy.StaleAfterTenMinutes => some 600000
  | CachePolicy.StaleAfterFifteenMinutes => some 900000
  | CachePolicy.StateAfterThirtyMinutes => some 1800000
  | CachePolicy.StaleAfterOneHour => some 3600000
  | CachePolicy.Unrecognized _ => none

/-- `RegisterResetRoundRobin` (source lines 176–189): guarded by the one-shot
latch; resolves the policy, sets `_DoNotCache` when the interval is `null`,
marks the latch, and starts the interval timer when the interval is neither
`null` nor `-1`.  Creating the timer stores a fresh referenced handle. -/
def RegisterResetRoundRobin (self : LegacyLocalCacheRepository)
    (policy : CachePolicy) : LegacyLocalCacheRepository :=
  if self.WasRegisteredForCacheReset then self
  else
    let cacheRefreshInterval := CalculateResetMsForStatePolicy policy
    let self :=
      { self with
        _DoNotCache := cacheRefreshInterval.isNone
        WasRegisteredForCacheReset := true }
    match cacheRefreshInterval with
    | none => self
    | some ms =>
      if ms ≠ -1 then
        { self with
          _CacheRefreshIntervalTimer := some { interval := ms, refed := true } }
      else self

/-- The constructor (source lines 5–9): sets `_Name`, registers the store name
with the helper, and runs `RegisterResetRoundRobin`.  Field initializers give
`_DoNotCache = false`, latch unset, no timer. -/
def construct (st : LocalCacheState) (cacheStoreName : String)
    (policy : CachePolicy) : LegacyLocalCacheRepository × LocalCacheState :=
  let st := LocalCacheHelper.RegisterLocalCacheStore st cacheStoreName
  let self : LegacyLocalCacheRepository :=
    { _Name := cacheStoreName
      _DoNotCache := false
      WasRegisteredForCacheReset := false
      _CacheRefreshIntervalTimer := none }
  (RegisterResetRoundRobin self policy, st)

/-- `IsCacheClear` (source lines 15–17). -/
def IsCacheClear (self : LegacyLocalCacheRepository) (st : LocalCacheState) :
    Bool :=
  LocalCacheHelper.GetLocalCacheSize st self._Name = 0

/-- `KillReset` (source lines 19–23): when a timer handle exists, call
`unref()` on it.  `unref` drops the `refed` flag only; the interval itself is
not cleared. -/
def KillReset (self : LegacyLocalCacheRepository) : LegacyLocalCacheRepository :=
  match self._CacheRefreshIntervalTimer with
  | some t =>
    { self with _CacheRefreshIntervalTimer := some { t with refed := false } }
  | none => self

/-- `Clear` (source lines 25–27). -/
def Clear (self : LegacyLocalCacheRepository) (st : LocalCacheState) :
    LocalCacheState :=
  LocalCacheHelper.ClearLocalCacheStore st self._Name

/-- `GetAllCachedValues` (source lines 29–31). -/
def GetAllCachedValues (self : LegacyLocalCacheRepository)
    (st : LocalCacheState) : CacheStore :=
  LocalCacheHelper.GetAllLocalCacheValues st self._Name

/-- `GetCachedValue` (source lines 33–44). -/
def GetCachedValue (self : LegacyLocalCacheRepository) (st : LocalCacheState)
    (key : String) : Bool × Option String :=
  if self._DoNotCache then (false, none)
  else
    match LocalCacheHelper.GetLocalCacheValue st self._Name key with
    | some cachedValue => (true, some cachedValue)
    | none => (false, none)

/-- `GetCachedValueJson` (source lines 46–62).  `JSON.parse` is a host builtin,
supplied as the parameter `jsonParse` (`none` embeds a thrown parse error).
On parse failure with the flag set, the raw string is returned coerced to the
target type: `JsValue.str cachedValue`.  The TypeScript flag defaults to
`false`; callers here always pass it explicitly. -/
def GetCachedValueJson (jsonParse : String → Option JsValue)
    (self : LegacyLocalCacheRepository) (st : LocalCacheState) (key : String)
    (returnTrueValueIfParseFail : Bool) : Bool × Option JsValue :=
  if self._DoNotCache then (false, none)
  else
    match LocalCacheHelper.GetLocalCacheValue st self._Name key with
    | some cachedValue =>
      match jsonParse cachedValue with
      | some parsed => (true, some parsed)
      | none =>
        if returnTrueValueIfParseFail then (true, some (JsValue.str cachedValue))
        else (false, none)
    | none => (false, none)

/-- `GetCachedValueNumber` (source lines 64–82).  `parseFloat` is a host
builtin, supplied as the parameter `parseFloatFn` (`none` embeds a `NaN`
result, the branch taken by `isNaN(val)`). -/
def GetCachedValueNumber (parseFloatFn : String → Option Int)
    (self : LegacyLocalCacheRepository) (st : LocalCacheState) (key : String)
    (returnTrueValueIfParseFail : Bool) : Bool × Option JsValue :=
  if self._DoNotCache then (false, none)
  else
    match LocalCacheHelper.GetLocalCacheValue st self._Name key with
    | some cachedValue =>
      match parseFloatFn cachedValue with
      | some val => (true, some (JsValue.num val))
      | none =>
        if returnTrueValueIfParseFail then (true, some (JsValue.str cachedValue))
        else (false, none)
    | none => (false, none)

/-- `SetCachedValue` (source lines 84–89): returns the updated registry and the
returned value (`none` embeds the `null` returned when caching is disabled). -/
def SetCachedValue (self : LegacyLocalCacheRepository) (st : LocalCacheState)
    (key value : String) : LocalCacheState × Option String :=
  if self._DoNotCache then (st, none)
  else
    let r := LocalCacheHelper.SetLocalCachedValue st self._Name key value
    (r.1, some r.2)

/-- `SetCachedValueJson` (source lines 91–99).  `JSON.stringify` is a host
builtin, supplied as the parameter `jsonStringify`; the original typed input is
echoed back, not the serialized string. -/
def SetCachedValueJson (jsonStringify : JsValue → String)
    (self : LegacyLocalCacheRepository) (st : LocalCacheState) (key : String)
    (value : JsValue) : LocalCacheState × Option JsValue :=
  if self._DoNotCache then (st, none)
  else
    let r :=
      LocalCacheHelper.SetLocalCachedValue st self._Name key
        (jsonStringify value)
    (r.1, some value)

/-- `SetCachedValueNumber` (source lines 101–109): serializes with
`value.toString()` and echoes the numeric input. -/
def SetCachedValueNumber (self : LegacyLocalCacheRepository)
    (st : LocalCacheState) (key : String) (value : Int) :
    LocalCacheState × Option Int :=
  if self._DoNotCache then (st, none)
  else
    let r :=
      LocalCacheHelper.SetLocalCachedValue st self._Name key (toString value)
    (r.1, some value)

/-- `GetCachedValueOrCacheNewValue` (source lines 111–117). -/
def GetCachedValueOrCacheNewValue (self : LegacyLocalCacheRepository)
    (st : LocalCacheState) (key value : String) :
    LocalCacheState × Option String :=
  let r := GetCachedValue self st key
  if r.1 then (st, r.2) else SetCachedValue self st key value

/-- `GetCachedValueOrCacheNewValueJson` (source lines 119–125): the read uses
the defaulted parse-failure flag, i.e. `false`. -/
def GetCachedValueOrCacheNewValueJson (jsonParse : String → Option JsValue)
    (jsonStringify : JsValue → String) (self : LegacyLocalCacheRepository)
    (st : LocalCacheState) (key : String) (value : JsValue) :
    LocalCacheState × Option JsValue :=
  let r := GetCachedValueJson jsonParse self st key false
  if r.1 then (st, r.2) else SetCachedValueJson jsonStringify self st key value

/-- `RemoveKey` (source lines 127–129): unconditional, no `_DoNotCache` check. -/
def RemoveKey (self : LegacyLocalCacheRepository) (st : LocalCacheState)
    (key : String) : LocalCacheState :=
  LocalCacheHelper.DeleteLocalCachedValue st self._Name key

/-- The body of the `setInterval` callback registered by
`RegisterResetRoundRobin` (source lines 182–187), i.e. one reset tick.  The
returned `Bool` records whether `ClearLocalCacheStore` was invoked during the
tick. -/
def ResetTick (self : LegacyLocalCacheRepository) (st : LocalCacheState) :
    LocalCacheState × Bool :=
  let cacheStoreSize := LocalCacheHelper.GetLocalCacheSize st self._Name
  if cacheStoreSize > 0 then
    (LocalCacheHelper.ClearLocalCacheStore st self._Name, true)
  else (st, false)

/-- Whether the repository's reset interval is still scheduled to fire.  In
Node.js an interval continues invoking its callback until `clearInterval`;
`unref()` does not cancel it, so an unref'ed interval keeps firing for as long
as the process stays alive. -/
def resetTickStillScheduled (self : LegacyLocalCacheRepository) : Bool :=
  self._CacheRefreshIntervalTimer.isSome

end LegacyLocalCacheRepository

/-! ## Helper lemmas about the association-list store model -/

theorem lookupAssoc_updateAssoc_self {α : Type} (l : List (String × α))
    (k : String) (v : α) : lookupAssoc (updateAssoc l k v) k = some v := by
  induction l with
  | nil => simp [updateAssoc, lookupAssoc]
  | cons hd tl ih =>
    obtain ⟨k', v'⟩ := hd
    by_cases h : k' = k
    · simp [updateAssoc, h, lookupAssoc]
    · simp [updateAssoc, h, lookupAssoc, ih]

theorem getStore_updateAssoc_self (st : LocalCacheState) (name : String)
    (s : CacheStore) :
    LocalCacheHelper.getStore (updateAssoc st name s) name = s := by
  simp [LocalCacheHelper.getStore, lookupAssoc_updateAssoc_self]

namespace LegacyLocalCacheRepository

/-- After a successful raw write, a raw read of the same key finds the written
value (shared between the round-trip and get-or-populate claims). -/
theorem getCachedValue_after_set (self : LegacyLocalCacheRepository)
    (st : LocalCacheState) (key value : String)
    (h : self._DoNotCache = false) :
    GetCachedValue self (SetCachedValue self st key value).1 key =
      (true, some value) := by
  simp [SetCachedValue, h, GetCachedValue, LocalCacheHelper.SetLocalCachedValue,
    LocalCacheHelper.GetLocalCacheValue, getStore_updateAssoc_self,
    lookupAssoc_updateAssoc_self]

end LegacyLocalCacheRepository

/-! ## Claim theorems -/

namespace LegacyLocalCacheRepository

/-- C1: for every member of the closed expiration-policy enumeration the
Policy Resolver returns exactly the interval of the spec's table: `DoNotCache`
maps to the disabled sentinel (`null`, i.e. `none`), `NoReset` to the
never-refresh sentinel (`-1`), and the ten stale policies to 5000, 10000,
30000, 60000, 120000, 300000, 600000, 900000, 1800000, 3600000 milliseconds
respectively. -/
theorem C1_policy_resolver_table :
    CalculateResetMsForStatePolicy CachePolicy.DoNotCache = none ∧
    CalculateResetMsForStatePolicy CachePolicy.NoReset = some (-1) ∧
    CalculateResetMsForStatePolicy CachePolicy.StaleAfterFiveSeconds = some 5000 ∧
    CalculateResetMsForStatePolicy CachePolicy.StaleAfterTenSeconds = some 10000 ∧
    CalculateResetMsForStatePolicy CachePolicy.SateAfterThirtySeconds = some 30000 ∧
    CalculateResetMsForStatePolicy CachePolicy.StaleAfterOneMinute = some 60000 ∧
    CalculateResetMsForStatePolicy CachePolicy.StaleAfterTwoMinutes = some 120000 ∧
    CalculateResetMsForStatePolicy CachePolicy.StaleAfterFiveMinutes = some 300000 ∧
    CalculateResetMsForStatePolicy CachePolicy.StaleAfterTenMinutes = some 600000 ∧
    CalculateResetMsForStatePolicy CachePolicy.StaleAfterFifteenMinutes = some 900000 ∧
    CalculateResetMsForStatePolicy CachePolicy.StateAfterThirtyMinutes = some 1800000 ∧
    CalculateResetMsForStatePolicy CachePolicy.StaleAfterOneHour = some 3600000 := by
  decide

/-- C2 counterexample: the claim says an unrecognized policy value leaves
caching enabled (reads and writes still reach the backing store).  In the code
the fallthrough leaves `timeOut` at `null`, and `_DoNotCache` is set to
`interval === null`, so the repository is disabled: with the backing store
holding `("k", "v")` in store `"s"`, a read of `"k"` misses and a write leaves
the store unchanged and returns `null`. -/
theorem C2_counterexample :
    GetCachedValue
        (construct [("s", [("k", "v")])] "s" (CachePolicy.Unrecognized 99)).1
        [("s", [("k", "v")])] "k" = (false, none) ∧
    SetCachedValue
        (construct [("s", [("k", "v")])] "s" (CachePolicy.Unrecognized 99)).1
        [("s", [("k", "v")])] "k" "w" = ([("s", [("k", "v")])], none) := by
  exact ⟨rfl, rfl⟩

/-- C2 (amended): a policy value outside the recognized enumeration falls
through to the `null` interval; the repository starts no timer AND sets its
disabled flag, so it behaves exactly like `DoNotCache` — indistinguishable
from `DoNotCache`, not from `NoReset`: reads and writes do not reach the
backing store. -/
theorem C2_unrecognized_policy_disables_caching (code : Int)
    (st0 st : LocalCacheState) (name key value : String) :
    ((construct st0 name (CachePolicy.Unrecognized code)).1)._DoNotCache = true ∧
    ((construct st0 name (CachePolicy.Unrecognized code)).1)._CacheRefreshIntervalTimer
      = none ∧
    GetCachedValue (construct st0 name (CachePolicy.Unrecognized code)).1 st key
      = (false, none) ∧
    SetCachedValue (construct st0 name (CachePolicy.Unrecognized code)).1 st key value
      = (st, none) := by
  refine ⟨rfl, rfl, rfl, rfl⟩

/-- C3 counterexample: the claim says that under the `DoNotCache` policy no
repository operation ever queries or mutates the backing store; but `RemoveKey`
performs no disabled check, so on a store holding `("k", "v")` it deletes the
entry — a mutation of the backing store. -/
theorem C3_counterexample :
    RemoveKey (construct [("s", [("k", "v")])] "s" CachePolicy.DoNotCache).1
        [("s", [("k", "v")])] "k" ≠ [("s", [("k", "v")])] := by
  decide

/-- C3 (amended): for a repository constructed with the `DoNotCache` policy,
every `Get*`/`Set*` call returns the miss/no-op result regardless of
backing-store contents, and none of those calls queries or mutates the backing
store (the registry value is returned unchanged, and the results do not depend
on it).  However `RemoveKey`, `Clear`, `GetAllCachedValues` and `IsCacheClear`
still reach the backing store unconditionally, and construction itself
registers the store name. -/
theorem C3_do_not_cache_get_set_short_circuit (st0 st : LocalCacheState)
    (name key value : String) (n : Int) (flag : Bool) (jv : JsValue)
    (jsonParse : String → Option JsValue) (parseFloatFn : String → Option Int)
    (jsonStringify : JsValue → String) :
    GetCachedValue (construct st0 name CachePolicy.DoNotCache).1 st key
      = (false, none) ∧
    GetCachedValueJson jsonParse (construct st0 name CachePolicy.DoNotCache).1
      st key flag = (false, none) ∧
    GetCachedValueNumber parseFloatFn (construct st0 name CachePolicy.DoNotCache).1
      st key flag = (false, none) ∧
    SetCachedValue (construct st0 name CachePolicy.DoNotCache).1 st key value
      = (st, none) ∧
    SetCachedValueJson jsonStringify (construct st0 name CachePolicy.DoNotCache).1
      st key jv = (st, none) ∧
    SetCachedValueNumber (construct st0 name CachePolicy.DoNotCache).1 st key n
      = (st, none) ∧
    GetCachedValueOrCacheNewValue (construct st0 name CachePolicy.DoNotCache).1
      st key value = (st, none) ∧
    GetCachedValueOrCacheNewValueJson jsonParse jsonStringify
      (construct st0 name CachePolicy.DoNotCache).1 st key jv = (st, none) := by
  refine ⟨rfl, rfl, rfl, rfl, rfl, rfl, ?_, ?_⟩ <;>
    simp [GetCachedValueOrCacheNewValue, GetCachedValueOrCacheNewValueJson,
      GetCachedValue, GetCachedValueJson, SetCachedValue, SetCachedValueJson,
      construct, RegisterResetRoundRobin, CalculateResetMsForStatePolicy]

end LegacyLocalCacheRepository

namespace LegacyLocalCacheRepository

/-- C4: on a repository whose policy is not disabled, `SetCachedValue(k, v)`
echoes the stored value and an immediately following `GetCachedValue(k)` on
the resulting store returns `(true, v)`. -/
theorem C4_set_get_round_trip (self : LegacyLocalCacheRepository)
    (st : LocalCacheState) (key value : String)
    (h : self._DoNotCache = false) :
    (SetCachedValue self st key value).2 = some value ∧
    GetCachedValue self (SetCachedValue self st key value).1 key =
      (true, some value) :=
  ⟨by simp [SetCachedValue, h, LocalCacheHelper.SetLocalCachedValue],
   getCachedValue_after_set self st key value h⟩

/-- C4 witness: the round trip evaluated on a `NoReset` repository over an
empty registry with key `"k"` and value `"v"`. -/
theorem C4_witness :
    (construct [] "s" CachePolicy.NoReset).1._DoNotCache = false ∧
    ((SetCachedValue (construct [] "s" CachePolicy.NoReset).1 [] "k" "v").2
        = some "v" ∧
      GetCachedValue (construct [] "s" CachePolicy.NoReset).1
        (SetCachedValue (construct [] "s" CachePolicy.NoReset).1 [] "k" "v").1 "k"
        = (true, some "v")) :=
  ⟨rfl, C4_set_get_round_trip (construct [] "s" CachePolicy.NoReset).1 [] "k" "v" rfl⟩

/-- C5: on a non-disabled repository, when the raw string stored under `k` is
not valid JSON, `GetCachedValueJson(k, true)` returns `(true, raw)` (the
unparsed raw string coerced to the target type) while
`GetCachedValueJson(k, false)` returns `(false, absent)`, and the analogous
flag semantics hold for `GetCachedValueNumber` when the numeric parse yields
not-a-number. -/
theorem C5_parse_failure_fallback (jsonParse : String → Option JsValue)
    (parseFloatFn : String → Option Int) (self : LegacyLocalCacheRepository)
    (st : LocalCacheState) (key raw : String)
    (hd : self._DoNotCache = false)
    (hk : LocalCacheHelper.GetLocalCacheValue st self._Name key = some raw)
    (hj : jsonParse raw = none) (hn : parseFloatFn raw = none) :
    GetCachedValueJson jsonParse self st key true
      = (true, some (JsValue.str raw)) ∧
    GetCachedValueJson jsonParse self st key false = (false, none) ∧
    GetCachedValueNumber parseFloatFn self st key true
      = (true, some (JsValue.str raw)) ∧
    GetCachedValueNumber parseFloatFn self st key false = (false, none) := by
  simp [GetCachedValueJson, GetCachedValueNumber, hd, hk, hj, hn]

/-- C5 witness: a `NoReset` repository over a registry whose store `"s"` maps
`"k"` to the unparseable raw string `"notjson"`, with parse functions that
reject everything. -/
theorem C5_witness :
    (construct [] "s" CachePolicy.NoReset).1._DoNotCache = false ∧
    LocalCacheHelper.GetLocalCacheValue [("s", [("k", "notjson")])]
      (construct [] "s" CachePolicy.NoReset).1._Name "k" = some "notjson" ∧
    (fun _ : String => (none : Option JsValue)) "notjson" = none ∧
    (fun _ : String => (none : Option Int)) "notjson" = none ∧
    (GetCachedValueJson (fun _ => none) (construct [] "s" CachePolicy.NoReset).1
        [("s", [("k", "notjson")])] "k" true
        = (true, some (JsValue.str "notjson")) ∧
      GetCachedValueJson (fun _ => none) (construct [] "s" CachePolicy.NoReset).1
        [("s", [("k", "notjson")])] "k" false = (false, none) ∧
      GetCachedValueNumber (fun _ => none) (construct [] "s" CachePolicy.NoReset).1
        [("s", [("k", "notjson")])] "k" true
        = (true, some (JsValue.str "notjson")) ∧
      GetCachedValueNumber (fun _ => none) (construct [] "s" CachePolicy.NoReset).1
        [("s", [("k", "notjson")])] "k" false = (false, none)) :=
  ⟨rfl, rfl, rfl, rfl,
   C5_parse_failure_fallback (fun _ => none) (fun _ => none)
     (construct [] "s" CachePolicy.NoReset).1 [("s", [("k", "notjson")])]
     "k" "notjson" rfl rfl rfl rfl⟩

end LegacyLocalCacheRepository

namespace LegacyLocalCacheRepository

/-- C6: on a non-disabled repository, `GetCachedValueOrCacheNewValue(k, v)`
reads first; on a hit it returns the cached value unchanged, discarding `v`
and performing no write (the registry is returned untouched); on a miss it is
exactly the write of `v` under `k` and returns the write's result (`v`); and a
second call with the same key and a different supplied value returns the
originally stored value unchanged, leaving the registry as the first call left
it. -/
theorem C6_get_or_populate (self : LegacyLocalCacheRepository)
    (st : LocalCacheState) (key value : String)
    (h : self._DoNotCache = false) :
    (∀ c, GetCachedValue self st key = (true, some c) →
        GetCachedValueOrCacheNewValue self st key value = (st, some c)) ∧
    (GetCachedValue self st key = (false, none) →
        GetCachedValueOrCacheNewValue self st key value
          = SetCachedValue self st key value ∧
        (GetCachedValueOrCacheNewValue self st key value).2 = some value) ∧
    (∀ value', GetCachedValue self st key = (false, none) →
        GetCachedValueOrCacheNewValue self
            (GetCachedValueOrCacheNewValue self st key value).1 key value'
          = ((GetCachedValueOrCacheNewValue self st key value).1, some value)) := by
  refine ⟨?_, ?_, ?_⟩
  · intro c hc
    simp [GetCachedValueOrCacheNewValue, hc]
  · intro hm
    simp [GetCachedValueOrCacheNewValue, hm, SetCachedValue, h,
      LocalCacheHelper.SetLocalCachedValue]
  · intro value' hm
    have h1 : GetCachedValueOrCacheNewValue self st key value
        = SetCachedValue self st key value := by
      simp [GetCachedValueOrCacheNewValue, hm]
    have h2 := getCachedValue_after_set self st key value h
    rw [h1]
    simp [GetCachedValueOrCacheNewValue, h2]

/-- C6 witness: a `NoReset` repository over an empty registry; key `"k"` is
fresh, the first call stores `"v"`, and a second call supplying `"w"` returns
the originally stored `"v"` unchanged. -/
theorem C6_witness :
    (construct [] "s" CachePolicy.NoReset).1._DoNotCache = false ∧
    GetCachedValue (construct [] "s" CachePolicy.NoReset).1 [] "k"
      = (false, none) ∧
    GetCachedValueOrCacheNewValue (construct [] "s" CachePolicy.NoReset).1 [] "k" "v"
      = SetCachedValue (construct [] "s" CachePolicy.NoReset).1 [] "k" "v" ∧
    GetCachedValueOrCacheNewValue (construct [] "s" CachePolicy.NoReset).1
        (GetCachedValueOrCacheNewValue (construct [] "s" CachePolicy.NoReset).1
          [] "k" "v").1 "k" "w"
      = ((GetCachedValueOrCacheNewValue (construct [] "s" CachePolicy.NoReset).1
          [] "k" "v").1, some "v") :=
  ⟨rfl, rfl,
   ((C6_get_or_populate (construct [] "s" CachePolicy.NoReset).1 [] "k" "v"
      rfl).2.1 rfl).1,
   (C6_get_or_populate (construct [] "s" CachePolicy.NoReset).1 [] "k" "v"
      rfl).2.2 "w" rfl⟩

end LegacyLocalCacheRepository

namespace LegacyLocalCacheRepository

/-- When the one-shot latch is unset, one registration marks the latch, sets
`_DoNotCache` from the resolved interval, and leaves some timer field value
(shared shape lemma for the latch claims). -/
theorem registerResetRoundRobin_shape (self : LegacyLocalCacheRepository)
    (policy : CachePolicy) (hw : self.WasRegisteredForCacheReset = false) :
    ∃ t : Option TimerHandle,
      RegisterResetRoundRobin self policy =
        { _Name := self._Name
          _DoNotCache := (CalculateResetMsForStatePolicy policy).isNone
          WasRegisteredForCacheReset := true
          _CacheRefreshIntervalTimer := t } := by
  cases hc : CalculateResetMsForStatePolicy policy with
  | none => exact ⟨self._CacheRefreshIntervalTimer, by simp [RegisterResetRoundRobin, hw, hc]⟩
  | some ms =>
    by_cases hm : ms = -1
    · exact ⟨self._CacheRefreshIntervalTimer, by simp [RegisterResetRoundRobin, hw, hc, hm]⟩
    · exact ⟨some { interval := ms, refed := true },
        by simp [RegisterResetRoundRobin, hw, hc, hm]⟩

/-- C7 counterexample: the claim says no further reset ticks fire after
`KillReset()`.  `KillReset` only calls `unref()` on the interval handle, which
does not cancel the interval: after constructing a `StaleAfterFiveSeconds`
repository and calling `KillReset`, the reset interval is still scheduled, and
a subsequent tick still clears a non-empty store. -/
theorem C7_counterexample :
    resetTickStillScheduled
      (KillReset (construct [] "s" CachePolicy.StaleAfterFiveSeconds).1) = true ∧
    ResetTick (KillReset (construct [] "s" CachePolicy.StaleAfterFiveSeconds).1)
      [("s", [("k", "v")])] = ([("s", [])], true) :=
  ⟨rfl, rfl⟩

/-- C7 (amended): for every policy that resolves to a finite interval (neither
the `null` disabled sentinel nor the `-1` never-refresh sentinel), construction
starts exactly one repeating timer, referenced; `KillReset()` unrefs that
timer — it no longer keeps the process alive — but does not cancel the
interval, so the reset tick remains scheduled; `KillReset` does not touch the
cached data, is idempotent, and is a no-op on an instance that never started a
timer. -/
theorem C7_kill_reset_unrefs_timer (policy : CachePolicy)
    (st0 : LocalCacheState) (name : String) (ms : Int)
    (h1 : CalculateResetMsForStatePolicy policy = some ms) (h2 : ms ≠ -1) :
    ((construct st0 name policy).1)._CacheRefreshIntervalTimer
      = some { interval := ms, refed := true } ∧
    (KillReset (construct st0 name policy).1)._CacheRefreshIntervalTimer
      = some { interval := ms, refed := false } ∧
    resetTickStillScheduled (KillReset (construct st0 name policy).1) = true ∧
    (∀ st, GetAllCachedValues (KillReset (construct st0 name policy).1) st
      = GetAllCachedValues (construct st0 name policy).1 st) ∧
    KillReset (KillReset (construct st0 name policy).1)
      = KillReset (construct st0 name policy).1 ∧
    (∀ r : LegacyLocalCacheRepository, r._CacheRefreshIntervalTimer = none →
      KillReset r = r) := by
  have hrepo : (construct st0 name policy).1
      = { _Name := name, _DoNotCache := false, WasRegisteredForCacheReset := true,
          _CacheRefreshIntervalTimer := some { interval := ms, refed := true } } := by
    simp [construct, RegisterResetRoundRobin, h1, h2]
  rw [hrepo]
  refine ⟨rfl, rfl, rfl, fun st => rfl, rfl, ?_⟩
  intro r hr
  simp [KillReset, hr]

/-- C7 witness: the amended claim evaluated on a `StaleAfterTenSeconds`
repository (interval 10000 ms) over an empty registry. -/
theorem C7_witness :
    ((construct [] "s" CachePolicy.StaleAfterTenSeconds).1)._CacheRefreshIntervalTimer
      = some { interval := 10000, refed := true } ∧
    (KillReset (construct [] "s" CachePolicy.StaleAfterTenSeconds).1)._CacheRefreshIntervalTimer
      = some { interval := 10000, refed := false } ∧
    resetTickStillScheduled
      (KillReset (construct [] "s" CachePolicy.StaleAfterTenSeconds).1) = true ∧
    KillReset (KillReset (construct [] "s" CachePolicy.StaleAfterTenSeconds).1)
      = KillReset (construct [] "s" CachePolicy.StaleAfterTenSeconds).1 :=
  ⟨(C7_kill_reset_unrefs_timer CachePolicy.StaleAfterTenSeconds [] "s" 10000 rfl
      (by decide)).1,
   (C7_kill_reset_unrefs_timer CachePolicy.StaleAfterTenSeconds [] "s" 10000 rfl
      (by decide)).2.1,
   (C7_kill_reset_unrefs_timer CachePolicy.StaleAfterTenSeconds [] "s" 10000 rfl
      (by decide)).2.2.1,
   (C7_kill_reset_unrefs_timer CachePolicy.StaleAfterTenSeconds [] "s" 10000 rfl
      (by decide)).2.2.2.2.1⟩

/-- C8: on each reset tick, if the named store's current size is greater than
zero the entire store is cleared (and the clear operation is invoked, the
`true` flag); if the store is already empty the tick leaves the registry
untouched and the underlying clear operation is not invoked (the `false`
flag). -/
theorem C8_reset_tick (self : LegacyLocalCacheRepository)
    (st : LocalCacheState) :
    (0 < LocalCacheHelper.GetLocalCacheSize st self._Name →
      ResetTick self st
        = (LocalCacheHelper.ClearLocalCacheStore st self._Name, true)) ∧
    (LocalCacheHelper.GetLocalCacheSize st self._Name = 0 →
      ResetTick self st = (st, false)) := by
  constructor
  · intro hpos
    simp [ResetTick, hpos]
  · intro hz
    simp [ResetTick, hz]

/-- C8 witness: one tick on a one-entry store clears it and invokes the clear
operation; one tick on an empty store changes nothing and does not invoke it. -/
theorem C8_witness :
    (0 < LocalCacheHelper.GetLocalCacheSize [("s", [("k", "v")])] "s" ∧
      ResetTick ⟨"s", false, true, none⟩ [("s", [("k", "v")])]
        = ([("s", [])], true)) ∧
    (LocalCacheHelper.GetLocalCacheSize [("s", [])] "s" = 0 ∧
      ResetTick ⟨"s", false, true, none⟩ [("s", [])] = ([("s", [])], false)) :=
  ⟨⟨by decide, (C8_reset_tick ⟨"s", false, true, none⟩ [("s", [("k", "v")])]).1
      (by decide)⟩,
   ⟨rfl, (C8_reset_tick ⟨"s", false, true, none⟩ [("s", [])]).2 rfl⟩⟩

end LegacyLocalCacheRepository

namespace LegacyLocalCacheRepository

/-- C9: the reset timer is registered at most once per instance: every
registration leaves the one-shot latch set, a second invocation of the
registration routine is a no-op on an already-registered instance, and in
particular when the latch is already set the routine changes nothing — so the
Idle-to-Active transition, and hence timer creation, happens at most once. -/
theorem C9_registration_guard (self : LegacyLocalCacheRepository)
    (policy policy' : CachePolicy) :
    (RegisterResetRoundRobin self policy).WasRegisteredForCacheReset = true ∧
    RegisterResetRoundRobin (RegisterResetRoundRobin self policy) policy'
      = RegisterResetRoundRobin self policy ∧
    (self.WasRegisteredForCacheReset = true →
      RegisterResetRoundRobin self policy = self) := by
  by_cases hw : self.WasRegisteredForCacheReset = true
  · have he : RegisterResetRoundRobin self policy = self := by
      simp [RegisterResetRoundRobin, hw]
    have he' : RegisterResetRoundRobin self policy' = self := by
      simp [RegisterResetRoundRobin, hw]
    rw [he]
    exact ⟨hw, he', fun _ => rfl⟩
  · have hw' : self.WasRegisteredForCacheReset = false := by
      simpa using hw
    obtain ⟨t, ht⟩ := registerResetRoundRobin_shape self policy hw'
    have hlatch : (RegisterResetRoundRobin self policy).WasRegisteredForCacheReset
        = true := by
      rw [ht]
    have hsecond : ∀ r : LegacyLocalCacheRepository,
        r.WasRegisteredForCacheReset = true →
        RegisterResetRoundRobin r policy' = r := fun r hr => by
      simp [RegisterResetRoundRobin, hr]
    exact ⟨hlatch, hsecond _ hlatch, fun hc => absurd hc (by simp [hw'])⟩

/-- C9 witness: a fresh instance registered with `StaleAfterFiveSeconds`; a
second registration with a different policy changes nothing, and on an
instance whose latch is already set the routine is the identity. -/
theorem C9_witness :
    (RegisterResetRoundRobin ⟨"s", false, false, none⟩
        CachePolicy.StaleAfterFiveSeconds).WasRegisteredForCacheReset = true ∧
    RegisterResetRoundRobin
        (RegisterResetRoundRobin ⟨"s", false, false, none⟩
          CachePolicy.StaleAfterFiveSeconds) CachePolicy.StaleAfterOneHour
      = RegisterResetRoundRobin ⟨"s", false, false, none⟩
          CachePolicy.StaleAfterFiveSeconds ∧
    (⟨"s", false, true, none⟩ : LegacyLocalCacheRepository).WasRegisteredForCacheReset
      = true ∧
    RegisterResetRoundRobin ⟨"s", false, true, none⟩ CachePolicy.StaleAfterOneHour
      = ⟨"s", false, true, none⟩ :=
  ⟨(C9_registration_guard ⟨"s", false, false, none⟩
      CachePolicy.StaleAfterFiveSeconds CachePolicy.StaleAfterOneHour).1,
   (C9_registration_guard ⟨"s", false, false, none⟩
      CachePolicy.StaleAfterFiveSeconds CachePolicy.StaleAfterOneHour).2.1,
   rfl,
   (C9_registration_guard ⟨"s", false, true, none⟩ CachePolicy.StaleAfterOneHour
      CachePolicy.NoReset).2.2 rfl⟩

/-- C10: on a non-disabled repository whose store holds, under `k`, a raw
string that is not valid JSON, `GetCachedValueOrCacheNewValueJson(k, v)`
treats the unparseable entry as a miss (the parse-failure flag defaults to
`false`), so the call is exactly the JSON write of `v`: it returns `v`, and
the backing store afterwards holds the JSON serialization of `v` under `k` —
the existing unparseable value is silently overwritten. -/
theorem C10_get_or_populate_json_overwrites (jsonParse : String → Option JsValue)
    (jsonStringify : JsValue → String) (self : LegacyLocalCacheRepository)
    (st : LocalCacheState) (key raw : String) (value : JsValue)
    (hd : self._DoNotCache = false)
    (hk : LocalCacheHelper.GetLocalCacheValue st self._Name key = some raw)
    (hj : jsonParse raw = none) :
    GetCachedValueOrCacheNewValueJson jsonParse jsonStringify self st key value
      = SetCachedValueJson jsonStringify self st key value ∧
    (GetCachedValueOrCacheNewValueJson jsonParse jsonStringify self st key value).2
      = some value ∧
    LocalCacheHelper.GetLocalCacheValue
      (GetCachedValueOrCacheNewValueJson jsonParse jsonStringify self st key value).1
      self._Name key = some (jsonStringify value) := by
  have hread : GetCachedValueJson jsonParse self st key false = (false, none) := by
    simp [GetCachedValueJson, hd, hk, hj]
  have h1 : GetCachedValueOrCacheNewValueJson jsonParse jsonStringify self st key value
      = SetCachedValueJson jsonStringify self st key value := by
    simp [GetCachedValueOrCacheNewValueJson, hread]
  refine ⟨h1, ?_, ?_⟩
  · rw [h1]
    simp [SetCachedValueJson, hd, LocalCacheHelper.SetLocalCachedValue]
  · rw [h1]
    simp [SetCachedValueJson, hd, LocalCacheHelper.SetLocalCachedValue,
      LocalCacheHelper.GetLocalCacheValue, getStore_updateAssoc_self,
      lookupAssoc_updateAssoc_self]

/-- C10 witness: a `NoReset` repository whose store `"s"` maps `"k"` to the
unparseable raw string `"notjson"`; the get-or-populate JSON call with the
number 5 overwrites the entry with the serialization of 5 and returns 5. -/
theorem C10_witness :
    (construct [] "s" CachePolicy.NoReset).1._DoNotCache = false ∧
    LocalCacheHelper.GetLocalCacheValue [("s", [("k", "notjson")])]
      (construct [] "s" CachePolicy.NoReset).1._Name "k" = some "notjson" ∧
    (fun _ : String => (none : Option JsValue)) "notjson" = none ∧
    (GetCachedValueOrCacheNewValueJson (fun _ => none) (fun _ => "J")
        (construct [] "s" CachePolicy.NoReset).1 [("s", [("k", "notjson")])] "k"
        (JsValue.num 5)
      = SetCachedValueJson (fun _ => "J") (construct [] "s" CachePolicy.NoReset).1
          [("s", [("k", "notjson")])] "k" (JsValue.num 5) ∧
     (GetCachedValueOrCacheNewValueJson (fun _ => none) (fun _ => "J")
        (construct [] "s" CachePolicy.NoReset).1 [("s", [("k", "notjson")])] "k"
        (JsValue.num 5)).2 = some (JsValue.num 5) ∧
     LocalCacheHelper.GetLocalCacheValue
        (GetCachedValueOrCacheNewValueJson (fun _ => none) (fun _ => "J")
          (construct [] "s" CachePolicy.NoReset).1 [("s", [("k", "notjson")])] "k"
          (JsValue.num 5)).1
        (construct [] "s" CachePolicy.NoReset).1._Name "k" = some "J") :=
  ⟨rfl, rfl, rfl,
   C10_get_or_populate_json_overwrites (fun _ => none) (fun _ => "J")
     (construct [] "s" CachePolicy.NoReset).1 [("s", [("k", "notjson")])] "k"
     "notjson" (JsValue.num 5) rfl rfl rfl⟩

end LegacyLocalCacheRepository
